import Mathlib

/-!
Shallow embedding of the jankboard client shell
(`src/client/src-tauri/src/main.rs`) and of the Telemetry Subscription Relay
it boots.  The `telemetry` module is declared by `main.rs` (`mod telemetry;`)
but its source is not part of the visible repository; those parts are
modelled from the specification, and each such definition says so in its
doc comment.
-/

namespace Jankboard

/-- The compiled-in NetworkTables server address from `main.rs`:
`const NTABLE_IP: (u8, u8, u8, u8) = (10, 12, 80, 2);`. -/
def NTABLE_IP : Nat × Nat × Nat × Nat := (10, 12, 80, 2)

/-- The compiled-in NetworkTables server port from `main.rs`:
`const NTABLE_PORT: u16 = 5810;`. -/
def NTABLE_PORT : Nat := 5810

/-- Abstract Tauri application handle (`app.app_handle()`); the shell only
passes it along, never inspects it. -/
structure AppHandle where
  id : Nat
deriving DecidableEq

/-- A task spawned via `tokio::spawn` during `setup`.  The only task the shell
ever spawns runs
`crate::telemetry::subscribe_topics(app_handle, NTABLE_IP, NTABLE_PORT)`. -/
inductive SpawnedTask where
  | subscribeTopics (handle : AppHandle) (ip : Nat × Nat × Nat × Nat) (port : Nat)
deriving DecidableEq

/-- The `setup` closure passed to `tauri::Builder::default().setup(|app| ...)`:
it clones the app handle, spawns the single relay task, and returns `Ok(())`.
The first component is the list of tasks the closure spawns, in order. -/
def setupHook (app : AppHandle) : List SpawnedTask × Except String Unit :=
  ([SpawnedTask.subscribeTopics app NTABLE_IP NTABLE_PORT], Except.ok ())

/-- Possible outcomes of the detached relay task.  Its `JoinHandle` is dropped
by the shell, so none of these is ever observed by `main`. -/
inductive TaskOutcome where
  | normal
  | error
  | panicked
deriving DecidableEq

/-- Outcome of the `main` process; `expect` on a failed `Result` panics with
the given message. -/
inductive MainOutcome where
  | panicked (msg : String)
  | exited
deriving DecidableEq

/-- Shallow embedding of `fn main()`.  `runtimeOk` says whether
`tokio::runtime::Runtime::new()` succeeds, `runOk` whether
`tauri::Builder::...::run(...)` returns `Ok`; `relay` is the eventual outcome
of the detached relay task, which `main` never joins.  The result is the
process outcome paired with the tasks spawned during setup. -/
def mainShell (runtimeOk runOk : Bool) (relay : TaskOutcome) (app : AppHandle) :
    MainOutcome × List SpawnedTask :=
  if runtimeOk then
    match setupHook app with
    | (tasks, Except.ok _) =>
      if runOk then (MainOutcome.exited, tasks)
      else (MainOutcome.panicked "failed to run app", tasks)
    | (tasks, Except.error _) =>
      (MainOutcome.panicked "failed to run app", tasks)
  else (MainOutcome.panicked "Failed to create Tokio runtime", [])

/-- The `subscribe_topics` invocations contained in a list of spawned tasks:
argument triples in spawn order. -/
def subscribeCalls (ts : List SpawnedTask) :
    List (AppHandle × (Nat × Nat × Nat × Nat) × Nat) :=
  ts.map fun t => match t with
    | SpawnedTask.subscribeTopics h ip p => (h, ip, p)

/-- C1: at startup (the Tokio runtime was created), `main` calls
`subscribe_topics` exactly once, with the host handle and the fixed
compiled-in endpoint; the endpoint constants are `(10, 12, 80, 2)` and
`5810`. -/
theorem main_calls_subscribe_topics_once (runOk : Bool) (relay : TaskOutcome)
    (app : AppHandle) :
    subscribeCalls (mainShell true runOk relay app).2
      = [(app, NTABLE_IP, NTABLE_PORT)]
    ∧ NTABLE_IP = (10, 12, 80, 2) ∧ NTABLE_PORT = 5810 := by
  refine ⟨?_, rfl, rfl⟩
  cases runOk <;> rfl

/-- C2: during setup `main` spawns exactly one background task, and that
task's body awaits `subscribe_topics` on the telemetry endpoint. -/
theorem setup_spawns_single_relay_task (runOk : Bool) (relay : TaskOutcome)
    (app : AppHandle) :
    (mainShell true runOk relay app).2
      = [SpawnedTask.subscribeTopics app NTABLE_IP NTABLE_PORT] := by
  cases runOk <;> rfl

/-- C7: the relay task is spawned detached and its outcome is discarded, so
the shell's behaviour is identical for every outcome of `subscribe_topics`;
in particular a successful run exits normally whatever the relay did. -/
theorem relay_failure_contained (runtimeOk runOk : Bool) (o o' : TaskOutcome)
    (app : AppHandle) :
    mainShell runtimeOk runOk o app = mainShell runtimeOk runOk o' app
    ∧ (mainShell true true o app).1 = MainOutcome.exited := ⟨rfl, rfl⟩

/-- C9: the shell itself is not failure-contained — `main` panics when Tokio
runtime creation fails and panics with `"failed to run app"` when the GUI
application fails to run. -/
theorem main_shell_panics (runOk : Bool) (relay : TaskOutcome)
    (app : AppHandle) :
    (mainShell false runOk relay app).1
      = MainOutcome.panicked "Failed to create Tokio runtime"
    ∧ (mainShell true false relay app).1
      = MainOutcome.panicked "failed to run app" := ⟨rfl, rfl⟩

/-- C10: the setup hook always returns `Ok(())`, and the relay task is spawned
unconditionally before it returns. -/
theorem setup_hook_infallible (app : AppHandle) :
    (setupHook app).2 = Except.ok ()
    ∧ (setupHook app).1.length = 1 := ⟨rfl, rfl⟩

/-!
Frame Codec (spec §4.1).  The `telemetry` module is not part of the visible
source, so the codec is modelled from the specification: inbound traffic is a
stream of length-prefixed binary frames, decoded incrementally with a
carry-over buffer for the partial frame at the end of a chunk.
-/

/-- Modelled from the spec: wire-level decoded frames (§4.1).  Topic names and
values are kept as raw byte lists at this level — the codec parses frames but
never interprets their payloads. -/
inductive DecodedFrame where
  | topicUpdate (name : List Nat) (value : List Nat) (version : Nat)
  | topicRemoved (name : List Nat)
  | handshakeAck
  | error (code : Nat) (message : List Nat)
deriving DecidableEq

/-- Modelled from the spec: decode one complete frame payload (the bytes after
the length byte).  The first byte is the type tag; a tag of `2` is a topic
update carrying a name-length byte, the name, a version byte and the value
bytes.  Unknown tags or truncated payloads yield `error`, never a crash. -/
def decodePayload : List Nat → DecodedFrame
  | [] => DecodedFrame.error 0 []
  | t :: body =>
    if t = 0 then DecodedFrame.handshakeAck
    else if t = 1 then DecodedFrame.topicRemoved body
    else if t = 2 then
      match body with
      | [] => DecodedFrame.error 2 []
      | n :: rest =>
        match rest.drop n with
        | [] => DecodedFrame.error 2 body
        | ver :: value => DecodedFrame.topicUpdate (rest.take n) value ver
    else DecodedFrame.error t body

/-- Modelled from the spec: greedy length-prefixed frame parsing.  Consumes as
many complete frames (one length byte, then that many payload bytes) as the
buffer holds, returning the decoded frames in order together with the
unconsumed tail — the partial frame kept as the carry-over buffer. -/
def parseFrames : List Nat → List DecodedFrame × List Nat
  | [] => ([], [])
  | n :: rest =>
    if rest.length < n then ([], n :: rest)
    else
      let out := parseFrames (rest.drop n)
      (decodePayload (rest.take n) :: out.1, out.2)
termination_by l => l.length
decreasing_by simp; omega

theorem parseFrames_nil : parseFrames [] = ([], []) := by simp [parseFrames]

theorem parseFrames_short (n : Nat) (rest : List Nat) (h : rest.length < n) :
    parseFrames (n :: rest) = ([], n :: rest) := by
  simp [parseFrames, h]

theorem parseFrames_step (n : Nat) (rest : List Nat) (h : ¬ rest.length < n) :
    parseFrames (n :: rest)
      = (decodePayload (rest.take n) :: (parseFrames (rest.drop n)).1,
         (parseFrames (rest.drop n)).2) := by
  rw [parseFrames]
  simp [h]

/-- Splitting a stream: parsing `a ++ b` parses everything `a` alone yields,
then continues on `a`'s carry-over followed by `b`. -/
theorem parseFrames_append (a b : List Nat) :
    parseFrames (a ++ b) =
      ((parseFrames a).1 ++ (parseFrames ((parseFrames a).2 ++ b)).1,
       (parseFrames ((parseFrames a).2 ++ b)).2) := by
  induction a using parseFrames.induct with
  | case1 => simp [parseFrames_nil]
  | case2 n rest h => simp [parseFrames_short n rest h]
  | case3 n rest h ih =>
    have hn : n ≤ rest.length := Nat.le_of_not_lt h
    have hlen : ¬ (rest ++ b).length < n := by
      simp [List.length_append]; omega
    have h3 : parseFrames ((n :: rest) ++ b)
        = (decodePayload (rest.take n) :: (parseFrames (rest.drop n ++ b)).1,
           (parseFrames (rest.drop n ++ b)).2) := by
      rw [List.cons_append, parseFrames_step n (rest ++ b) hlen,
        List.take_append_of_le_length hn, List.drop_append_of_le_length hn]
    rw [h3, parseFrames_step n rest h, ih]
    simp

/-- The carry-over buffer holds no complete frame: parsing it again yields
nothing new. -/
theorem parseFrames_carry (l : List Nat) :
    parseFrames (parseFrames l).2 = ([], (parseFrames l).2) := by
  induction l using parseFrames.induct with
  | case1 => simp [parseFrames_nil]
  | case2 n rest h => rw [parseFrames_short n rest h, parseFrames_short n rest h]
  | case3 n rest h ih => rw [parseFrames_step n rest h]; exact ih

/-- Modelled from the spec: repeated calls of `decode`, one byte chunk per
call, threading the carry-over buffer between calls.  Returns every frame
produced across the calls, in order, with the final carry-over buffer. -/
def decodeChunks : List (List Nat) → List Nat → List DecodedFrame × List Nat
  | [], buf => ([], buf)
  | c :: cs, buf =>
    ((parseFrames (buf ++ c)).1 ++ (decodeChunks cs (parseFrames (buf ++ c)).2).1,
     (decodeChunks cs (parseFrames (buf ++ c)).2).2)

theorem decodeChunks_eq_parseFrames (cs : List (List Nat)) (buf : List Nat)
    (hbuf : parseFrames buf = ([], buf)) :
    decodeChunks cs buf = parseFrames (buf ++ cs.flatten) := by
  induction cs generalizing buf with
  | nil => simp [decodeChunks, hbuf]
  | cons c cs ih =>
    have key := parseFrames_append (buf ++ c) cs.flatten
    rw [decodeChunks, ih _ (parseFrames_carry (buf ++ c)),
      List.flatten_cons, ← List.append_assoc, key]

/-- C5: fragmentation transparency — decoding a byte stream fed to the codec
in arbitrary chunks, carry-over buffer threaded between calls, yields exactly
the same `DecodedFrame` sequence (and final carry) as decoding the whole
stream in one contiguous call. -/
theorem decode_fragmentation_transparency (cs : List (List Nat)) :
    decodeChunks cs [] = parseFrames cs.flatten := by
  have h := decodeChunks_eq_parseFrames cs [] parseFrames_nil
  simpa using h

/-!
Topic Subscription Table (spec §3, §4.3), modelled from the specification.
-/

/-- Modelled from the spec: tags of the wire's primitive value types —
boolean, integer, floating point, string, raw bytes, and homogeneous arrays
thereof (§3). -/
inductive ValueType where
  | boolT
  | intT
  | floatT
  | stringT
  | rawT
  | arrayT (elem : ValueType)
deriving DecidableEq

/-- Modelled from the spec: a typed wire value (§3).  Floating-point payloads
are carried as their raw bit pattern; the table stores values and compares
their types, it never interprets payloads. -/
inductive TypedValue where
  | vbool (b : Bool)
  | vint (i : Int)
  | vfloat (bits : Nat)
  | vstring (s : String)
  | vraw (bytes : List Nat)
  | varray (elem : ValueType) (items : List TypedValue)

/-- The type tag of a typed value. -/
def TypedValue.vtype : TypedValue → ValueType
  | vbool _ => ValueType.boolT
  | vint _ => ValueType.intT
  | vfloat _ => ValueType.floatT
  | vstring _ => ValueType.stringT
  | vraw _ => ValueType.rawT
  | varray e _ => ValueType.arrayT e

/-- Modelled from the spec: a topic — name, current typed value, monotonically
increasing version, and the timestamp of the last accepted update (§3). -/
structure Topic where
  name : String
  value : TypedValue
  version : Nat
  lastUpdated : Nat

/-- Modelled from the spec: the host-visible change event
`{name, value, version, removed}` (§6); `value` is `none` on removal. -/
structure TopicChangeEvent where
  name : String
  value : Option TypedValue
  version : Nat
  removed : Bool

/-- Modelled from the spec: protocol violations surfaced by the table (§4.3,
§7). -/
inductive ProtocolError where
  | typeMismatch (name : String)
deriving DecidableEq

/-- Modelled from the spec: the table-level view of an inbound frame, after
the codec has decoded and typed it (§4.3). -/
inductive TableFrame where
  | topicUpdate (name : String) (value : TypedValue) (version : Nat)
  | topicRemoved (name : String)

/-- The topic map, keyed by name. -/
def TopicTable : Type := List Topic

/-- Find the topic with the given name. -/
def lookupTopic : TopicTable → String → Option Topic
  | [], _ => none
  | t :: ts, n => if t.name = n then some t else lookupTopic ts n

/-- Insert or replace the topic with `t.name`. -/
def storeTopic : TopicTable → Topic → TopicTable
  | [], t => [t]
  | u :: ts, t => if u.name = t.name then t :: ts else u :: storeTopic ts t

/-- Delete the topic with the given name. -/
def removeTopic : TopicTable → String → TopicTable
  | [], _ => []
  | t :: ts, n => if t.name = n then ts else t :: removeTopic ts n

/-- Result of `apply`: the new table, the optional delivered event, and the
optional protocol error. -/
structure ApplyOut where
  table : TopicTable
  event : Option TopicChangeEvent
  err : Option ProtocolError

/-- Modelled from the spec (§4.3): `apply(DecodedFrame) -> optional
TopicChangeEvent`.  On `TopicUpdate`: a new topic is created; on an existing
topic a frame whose value type differs from the stored type is rejected with
`ProtocolError` and mutates nothing; otherwise the update is accepted only
when its version is strictly greater than the stored one, and stale or
duplicate frames are silently dropped.  On `TopicRemoved`: the topic is
deleted and a `removed` event is produced.  `now` is the timestamp recorded
in `lastUpdated` on acceptance. -/
def applyFrame (tbl : TopicTable) (f : TableFrame) (now : Nat) : ApplyOut :=
  match f with
  | TableFrame.topicUpdate name v ver =>
    match lookupTopic tbl name with
    | none =>
      { table := storeTopic tbl
          { name := name, value := v, version := ver, lastUpdated := now },
        event := some
          { name := name, value := some v, version := ver, removed := false },
        err := none }
    | some t =>
      if v.vtype ≠ t.value.vtype then
        { table := tbl, event := none,
          err := some (ProtocolError.typeMismatch name) }
      else if t.version < ver then
        { table := storeTopic tbl
            { name := name, value := v, version := ver, lastUpdated := now },
          event := some
            { name := name, value := some v, version := ver, removed := false },
          err := none }
      else
        { table := tbl, event := none, err := none }
  | TableFrame.topicRemoved name =>
      { table := removeTopic tbl name,
        event := some
          { name := name, value := none, version := 0, removed := true },
        err := none }

/-- A concrete topic used to evaluate the table operations: boolean-typed,
stored at version 5. -/
def exampleTopic : Topic :=
  { name := "a", value := TypedValue.vbool true, version := 5, lastUpdated := 0 }

/-- A concrete one-topic table. -/
def exampleTable : TopicTable := [exampleTopic]

/-- C3, counterexample: a frame for topic `"a"` with version `3 ≤ 5` (the
stored version) but an integer value against the stored boolean raises a
`ProtocolError` — the claim as stated says frames with an equal or smaller
version raise no error, but the type check of §4.3 precedes the version
check. -/
theorem stale_frame_no_error_counterexample :
    3 ≤ exampleTopic.version
    ∧ (applyFrame exampleTable
        (TableFrame.topicUpdate "a" (TypedValue.vint 0) 3) 1).err
      = some (ProtocolError.typeMismatch "a") := by
  constructor
  · decide
  · rfl

/-- C3 (amended): for a topic already in the table, an update frame delivers
an event only if its version is strictly greater than the stored version; a
frame whose value type matches the stored type and whose version is equal or
smaller produces no event, mutates no stored state, and raises no error. -/
theorem version_gate (tbl : TopicTable) (name : String) (v : TypedValue)
    (ver now : Nat) (t : Topic) (hl : lookupTopic tbl name = some t) :
    ((applyFrame tbl (TableFrame.topicUpdate name v ver) now).event.isSome →
      t.version < ver)
    ∧ (v.vtype = t.value.vtype → ver ≤ t.version →
        applyFrame tbl (TableFrame.topicUpdate name v ver) now
          = { table := tbl, event := none, err := none }) := by
  constructor
  · intro hev
    by_cases hty : v.vtype = t.value.vtype
    · by_cases hv : t.version < ver
      · exact hv
      · simp [applyFrame, hl, hty, hv] at hev
    · simp [applyFrame, hl, hty] at hev
  · intro hty hle
    simp [applyFrame, hl, hty]
    omega

/-- Witness for the amended C3: a boolean frame for `"a"` at the stored
version 5 is silently absorbed — state, event and error all unchanged. -/
theorem version_gate_witness :
    applyFrame exampleTable
        (TableFrame.topicUpdate "a" (TypedValue.vbool false) 5) 7
      = { table := exampleTable, event := none, err := none } :=
  (version_gate exampleTable "a" (TypedValue.vbool false) 5 7 exampleTopic
    rfl).2 rfl (by decide)

/-- C4: applying an update whose value type differs from an existing topic's
stored type always yields a `ProtocolError` (type mismatch) and leaves the
table — hence the topic's value, version and timestamp — unchanged. -/
theorem type_mismatch_rejected (tbl : TopicTable) (name : String)
    (v : TypedValue) (ver now : Nat) (t : Topic)
    (hl : lookupTopic tbl name = some t) (hty : v.vtype ≠ t.value.vtype) :
    applyFrame tbl (TableFrame.topicUpdate name v ver) now
      = { table := tbl, event := none,
          err := some (ProtocolError.typeMismatch name) } := by
  simp [applyFrame, hl, hty]

/-- Witness for C4: an integer frame against the boolean topic `"a"` is
rejected with a type mismatch and the table is untouched. -/
theorem type_mismatch_rejected_witness :
    applyFrame exampleTable
        (TableFrame.topicUpdate "a" (TypedValue.vint 4) 9) 2
      = { table := exampleTable, event := none,
          err := some (ProtocolError.typeMismatch "a") } :=
  type_mismatch_rejected exampleTable "a" (TypedValue.vint 4) 9 2 exampleTopic
    rfl (by decide)

/-!
Connection Manager reconnect backoff (spec §4.2), modelled from the
specification.
-/

/-- Modelled from the spec: backoff base delay in milliseconds (§4.2). -/
def baseDelayMs : Nat := 250

/-- Modelled from the spec: backoff cap in milliseconds (§4.2). -/
def capDelayMs : Nat := 10000

/-- Outcome of one connection attempt: it failed, or it reached the
`Subscribed` state. -/
inductive AttemptOutcome where
  | failed
  | subscribed
deriving DecidableEq

/-- Modelled from the spec: exponential backoff — a failed attempt doubles
the delay up to the cap (jitter perturbs the wait inside the cap and is
abstracted away, as in the §8 property); reaching `Subscribed` resets the
delay to base. -/
def backoffStep (d : Nat) : AttemptOutcome → Nat
  | AttemptOutcome.failed => min (d * 2) capDelayMs
  | AttemptOutcome.subscribed => baseDelayMs

/-- The delay before the `n`-th retry in a run of consecutive failures that
starts at delay `d`. -/
def backoffRun (d : Nat) : Nat → Nat
  | 0 => d
  | n + 1 => backoffStep (backoffRun d n) AttemptOutcome.failed

/-- Every delay in a failure run starting at or below the cap stays at or
below the cap. -/
theorem backoffRun_le_cap (d : Nat) (hd : d ≤ capDelayMs) (n : Nat) :
    backoffRun d n ≤ capDelayMs := by
  cases n with
  | zero => exact hd
  | succ m => exact Nat.min_le_right _ _

/-- C6: across a run of consecutive failed attempts the backoff delay is
non-decreasing and never exceeds the cap, and a single successful
`Subscribed` transition resets any delay to the base value. -/
theorem backoff_monotone_capped_reset (d : Nat) (hd : d ≤ capDelayMs)
    (n : Nat) :
    backoffRun d n ≤ backoffRun d (n + 1)
    ∧ backoffRun d n ≤ capDelayMs
    ∧ (∀ d2 : Nat, backoffStep d2 AttemptOutcome.subscribed = baseDelayMs) := by
  refine ⟨?_, backoffRun_le_cap d hd n, fun _ => rfl⟩
  have hcap := backoffRun_le_cap d hd n
  have hdouble : backoffRun d n ≤ backoffRun d n * 2 := by omega
  exact Nat.le_min.mpr ⟨hdouble, hcap⟩

/-- Witness for C6: starting at the base delay, the third retry waits no
longer than the fourth, below the cap, and a success resets to base. -/
theorem backoff_monotone_capped_reset_witness :
    backoffRun 250 3 ≤ backoffRun 250 4
    ∧ backoffRun 250 3 ≤ capDelayMs
    ∧ (∀ d2 : Nat, backoffStep d2 AttemptOutcome.subscribed = baseDelayMs) :=
  backoff_monotone_capped_reset 250 (by decide) 3

/-!
Endpoint immutability (spec §3, §6).
-/

/-- An endpoint as in §3: `{host: address, port: integer}`. -/
structure Endpoint where
  host : Nat × Nat × Nat × Nat
  port : Nat
deriving DecidableEq

/-- Modelled from the spec: the Relay Supervisor's configuration, built once
by `subscribe_topics` from its arguments; the spec admits no operation that
rewrites it ("Fixed for the process lifetime"). -/
structure RelayConfig where
  endpoint : Endpoint
deriving DecidableEq

/-- The configuration `subscribe_topics(host, ip, port)` constructs. -/
def relayConfigOf (ip : Nat × Nat × Nat × Nat) (port : Nat) : RelayConfig :=
  { endpoint := { host := ip, port := port } }

/-- Modelled from the spec: the endpoint the `n`-th connection attempt of the
reconnect loop dials — every attempt reads the same immutable
configuration. -/
def attemptEndpoint (cfg : RelayConfig) (n : Nat) : Endpoint :=
  cfg.endpoint

/-- C8: the endpoint is fixed for the process lifetime — every connection
attempt of the relay started by `main` dials the same endpoint, and that
endpoint is the compiled-in `(10, 12, 80, 2) : 5810`. -/
theorem endpoint_fixed (n m : Nat) :
    attemptEndpoint (relayConfigOf NTABLE_IP NTABLE_PORT) n
      = attemptEndpoint (relayConfigOf NTABLE_IP NTABLE_PORT) m
    ∧ attemptEndpoint (relayConfigOf NTABLE_IP NTABLE_PORT) n
      = { host := (10, 12, 80, 2), port := 5810 } := ⟨rfl, rfl⟩

end Jankboard
